import Mathlib

/-!
Shallow embedding of the VideoS-tream backend (Node/Express + Mongoose),
restricted to the parts exercised by the verified properties:

* `backend/src/controllers/stream.controller.js` (`streamVideo`)
* `backend/src/controllers/video.controller.js` (`getVideo`)
* `backend/src/middleware/auth.js` (`optionalAuth`)
* `backend/src/services/sensitivity.service.enhanced.js`
  (`analyzeVideoCharacteristics`, the final score classification in `analyze`)
* `backend/src/workers/videoProcessor.worker.js` (status-to-level mapping)
* the auth controller (`register`, `refreshToken`, `logout`)

Machine numbers from JavaScript are modelled as `ℚ` (scores, durations,
bitrates) or `ℕ` (ids, byte offsets and sizes); strings stay `String`;
fallible lookups return `Option`.  The document store is a list of records;
handlers are pure functions from request and store to a response (and, for
mutating handlers, an updated store).
-/

namespace VideoStream

/-- Video visibility, from the `visibility` enum of the Video schema
(`models/Video.js`): `private`, `organization`, `public`. -/
inductive Visibility where
  | priv
  | org
  | pub
deriving DecidableEq

/-- Processing status, from the `status` enum of the Video schema. -/
inductive VideoStatus where
  | uploading
  | processing
  | completed
  | failed
deriving DecidableEq

/-- User role, from the `role` enum of the User schema. -/
inductive Role where
  | viewer
  | editor
  | admin
deriving DecidableEq

/-- One Video document, with the fields read by the handlers under study.
`blob` is the byte content of the stored file (the blob store), carried
here so that streamed bodies can be compared with the stored bytes. -/
structure Video where
  vid : Nat
  organizationId : Nat
  uploadedBy : Nat
  visibility : Visibility
  allowedUsers : List Nat
  status : VideoStatus
  fileSize : Nat
  blob : List Nat
deriving DecidableEq

/-- `Video.findById`: lookup in the document store by id. -/
def findById (db : List Video) (id : Nat) : Option Video :=
  db.find? (fun v => v.vid == id)

/-- The request context attached by the auth middleware on success:
`req.userId`, `req.organizationId`, `req.userRole` (`middleware/auth.js`). -/
structure AuthCtx where
  userId : Nat
  organizationId : Nat
  role : Role
deriving DecidableEq

/-- A parsed `Range: bytes=start-end` header.  The controller obtains
`start = parseInt(parts[0])` and, when the end part is present,
`stop = parseInt(parts[1])`; `bytes=start-` leaves `stop` empty. -/
structure RangeHeader where
  start : Nat
  stop : Option Nat
deriving DecidableEq

/-- A request to `GET /api/stream/:id`.  `headerAuth` is the context the
middleware would derive from a valid `Authorization: Bearer` header
(absent when no valid header token was sent); `queryAuth` is the context
carried by the `token` query parameter, kept in the model to show that the
middleware never reads it. -/
structure StreamRequest where
  videoId : Nat
  headerAuth : Option AuthCtx
  queryAuth : Option AuthCtx
  range : Option RangeHeader
deriving DecidableEq

/-- `optionalAuth` (`middleware/auth.js`, lines 52-74): only the
`Authorization` header is consulted; a missing or invalid token leaves the
request anonymous and the middleware proceeds.  The `token` query
parameter is never read anywhere in the backend. -/
def optionalAuth (req : StreamRequest) : Option AuthCtx :=
  req.headerAuth

/-- Responses of `streamVideo`.  `serverError` is the 500 issued by the
catch-all handler (in particular when `fs.createReadStream` rejects
`start > end` before any header is written); `rangeNotSatisfiable` is the
416 response the specification expects, present in the model so its
absence from the code's behaviour can be stated. -/
inductive StreamResponse where
  | notFound
  | accessDenied
  | notReady (status : VideoStatus)
  | rangeNotSatisfiable (total : Nat)
  | serverError
  | full (contentLength : Nat) (body : List Nat)
  | partialContent (start stop total contentLength : Nat) (body : List Nat)
deriving DecidableEq

/-- The end of a range defaults to `fileSize - 1` when the header has no
explicit end (`parts[1] ? parseInt(parts[1], 10) : videoSize - 1`). -/
def resolveEnd (stop : Option Nat) (fileSize : Nat) : Nat :=
  stop.getD (fileSize - 1)

/-- The body/headers part of `streamVideo` (controller lines 42-71),
after the guards have passed.  With a range, `fs.createReadStream` is
invoked with the raw parsed bounds before `writeHead`; Node rejects
`start > end` synchronously, which the controller's catch turns into a
500.  Otherwise a 206 is written with `Content-Range: bytes start-end/size`
and `Content-Length = end - start + 1`, and the stream yields the stored
bytes from `start` up to `end` (truncated at end of file).  With no range,
a 200 with the whole file. -/
def rangeResponse (video : Video) : Option RangeHeader → StreamResponse
  | none => .full video.fileSize video.blob
  | some r =>
    let start := r.start
    let stop := resolveEnd r.stop video.fileSize
    if stop < start then .serverError
    else .partialContent start stop video.fileSize (stop - start + 1)
      ((video.blob.drop start).take (stop - start + 1))

/-- `streamVideo` (`controllers/stream.controller.js`): look up the video
(404 when unknown); when the middleware attached an organization id,
reject a different organization with 403; require `status === 'completed'`
(400 otherwise); then serve the body.  An anonymous request skips the
organization check entirely (`if (req.organizationId && ...)`).  The
stored file is taken to be present (the `fs.existsSync` 404 branch is
for a lost blob), and the asynchronous view-count update happens after
the response, outside the response model. -/
def streamVideo (db : List Video) (req : StreamRequest) : StreamResponse :=
  match findById db req.videoId with
  | none => .notFound
  | some video =>
    let orgMismatch : Bool :=
      match optionalAuth req with
      | some ctx => video.organizationId != ctx.organizationId
      | none => false
    if orgMismatch then .accessDenied
    else if video.status != .completed then .notReady video.status
    else rangeResponse video req.range

/-- Responses of `getVideo`.  `accessDenied` is the 403 for a
cross-organization read; `accessDeniedPrivate` the 403 for a private
video read by a non-owner non-admin. -/
inductive VideoResponse where
  | notFound
  | accessDenied
  | accessDeniedPrivate
  | ok (video : Video)
deriving DecidableEq

/-- `getVideo` (`controllers/video.controller.js`, lines 120-150): 404 for
an unknown id; 403 when the caller's organization differs; 403 when the
video is private and the caller is neither the uploader nor an admin.
The `allowedUsers` list is not consulted on this path. -/
def getVideo (db : List Video) (ctx : AuthCtx) (id : Nat) : VideoResponse :=
  match findById db id with
  | none => .notFound
  | some video =>
    if video.organizationId != ctx.organizationId then .accessDenied
    else if video.visibility == .priv
        && video.uploadedBy != ctx.userId
        && !(ctx.role == .admin) then .accessDeniedPrivate
    else .ok video

/-- The organization guard of `streamVideo` passes: either no header token
was presented, or the token's organization equals the video's. -/
def authPasses (req : StreamRequest) (video : Video) : Bool :=
  match req.headerAuth with
  | some ctx => video.organizationId == ctx.organizationId
  | none => true

theorem streamVideo_eq_rangeResponse (db : List Video) (req : StreamRequest)
    (video : Video) (hfind : findById db req.videoId = some video)
    (hauth : authPasses req video = true)
    (hstatus : video.status = .completed) :
    streamVideo db req = rangeResponse video req.range := by
  unfold streamVideo
  rw [hfind]
  unfold authPasses at hauth
  unfold optionalAuth
  cases h : req.headerAuth with
  | none => simp [hstatus]
  | some ctx =>
    rw [h] at hauth
    have horg : video.organizationId = ctx.organizationId := by
      simpa using hauth
    simp [horg, hstatus]

/-! ### Sensitivity analysis

From `services/sensitivity.service.enhanced.js`.  JavaScript numbers are
modelled as `ℚ`; the thresholds and category weights are the literals of
the service's constructor. -/

/-- The probed metadata fields read by `analyzeVideoCharacteristics`:
duration in seconds, resolution, bitrate, frame rate. -/
structure Metadata where
  duration : ℚ
  width : ℚ
  height : ℚ
  bitrate : ℚ
  frameRate : ℚ
deriving DecidableEq

/-- `thresholds.duration.veryLong`. -/
def durationVeryLong : ℚ := 7200

/-- `thresholds.duration.suspicious`. -/
def durationSuspicious : ℚ := 10800

/-- `thresholds.bitrate.veryHigh`. -/
def bitrateVeryHigh : ℚ := 15000000

/-- `thresholds.bitrate.veryLow`. -/
def bitrateVeryLow : ℚ := 100000

/-- `thresholds.resolution`. -/
def resolutionMinWidth : ℚ := 320
def resolutionMaxWidth : ℚ := 7680
def resolutionMinHeight : ℚ := 240
def resolutionMaxHeight : ℚ := 4320

/-- `thresholds.frameRate`. -/
def frameRateMin : ℚ := 15
def frameRateMax : ℚ := 120

/-- `this.categoryWeights`. -/
def categoryWeight : String → ℚ
  | "long_duration" => 1/10
  | "unusual_resolution" => 15/100
  | "high_bitrate" => 1/10
  | "low_bitrate" => 15/100
  | "no_audio" => 5/100
  | "no_video_stream" => 3/10
  | "corrupt_metadata" => 25/100
  | "unusual_framerate" => 1/10
  | "suspicious_aspect_ratio" => 1/10
  | "black_frames" => 2/10
  | "audio_issues" => 15/100
  | _ => 0

/-- `Math.abs`. -/
def mathAbs (q : ℚ) : ℚ := if q < 0 then -q else q

/-- `Math.min`. -/
def mathMin (a b : ℚ) : ℚ := if a ≤ b then a else b

/-- `calculateAspectRatio`: returns `0` (here `none`) when width or height
is zero, otherwise the object whose `ratio` field is `width / height`. -/
def calcAspect (width height : ℚ) : Option ℚ :=
  if width = 0 ∨ height = 0 then none else some (width / height)

/-- `isCommonAspectRatio`: a falsy argument (zero aspect) is uncommon;
otherwise the ratio must be within `0.05` of one of the five common
values. -/
def isCommonAspect : Option ℚ → Bool
  | none => false
  | some r =>
    [((16 : ℚ)/9), 4/3, 21/9, 1, 9/16].any fun v => mathAbs (r - v) < 5/100

/-- Issues pushed and score accumulated by one rule block. -/
structure RuleResult where
  issues : List String
  score : ℚ
deriving DecidableEq

/-- Duration block of `analyzeVideoCharacteristics` (lines 181-187): over
`suspicious` pushes only `extremely_long_duration` with 1.5 times the
`long_duration` weight, otherwise over `veryLong` pushes `long_duration`
with its weight. -/
def durationRule (m : Metadata) : RuleResult :=
  if m.duration > durationSuspicious then
    ⟨["extremely_long_duration"], categoryWeight "long_duration" * (3/2)⟩
  else if m.duration > durationVeryLong then
    ⟨["long_duration"], categoryWeight "long_duration"⟩
  else ⟨[], 0⟩

/-- Width or height beyond the maxima. -/
def highResolutionRule (m : Metadata) : RuleResult :=
  if m.width > resolutionMaxWidth ∨ m.height > resolutionMaxHeight then
    ⟨["extremely_high_resolution"], categoryWeight "unusual_resolution"⟩
  else ⟨[], 0⟩

/-- Width or height below the minima. -/
def lowResolutionRule (m : Metadata) : RuleResult :=
  if m.width < resolutionMinWidth ∨ m.height < resolutionMinHeight then
    ⟨["very_low_resolution"], categoryWeight "unusual_resolution"⟩
  else ⟨[], 0⟩

/-- Aspect ratio not within tolerance of a common one. -/
def aspectRule (m : Metadata) : RuleResult :=
  if !(isCommonAspect (calcAspect m.width m.height)) then
    ⟨["unusual_aspect_ratio"], categoryWeight "suspicious_aspect_ratio"⟩
  else ⟨[], 0⟩

/-- Bitrate above `veryHigh`. -/
def highBitrateRule (m : Metadata) : RuleResult :=
  if m.bitrate > bitrateVeryHigh then
    ⟨["extremely_high_bitrate"], categoryWeight "high_bitrate"⟩
  else ⟨[], 0⟩

/-- Bitrate below `veryLow` on a clip longer than a minute. -/
def lowBitrateRule (m : Metadata) : RuleResult :=
  if m.bitrate < bitrateVeryLow ∧ m.duration > 60 then
    ⟨["very_low_bitrate"], categoryWeight "low_bitrate"⟩
  else ⟨[], 0⟩

/-- Frame rate above the maximum. -/
def highFrameRateRule (m : Metadata) : RuleResult :=
  if m.frameRate > frameRateMax then
    ⟨["unusually_high_framerate"], categoryWeight "unusual_framerate"⟩
  else ⟨[], 0⟩

/-- Frame rate below the minimum but non-zero. -/
def lowFrameRateRule (m : Metadata) : RuleResult :=
  if m.frameRate < frameRateMin ∧ m.frameRate > 0 then
    ⟨["very_low_framerate"], categoryWeight "unusual_framerate"⟩
  else ⟨[], 0⟩

/-- `analyzeVideoCharacteristics`: the rule blocks run in source order,
each pushing its issues and adding its weight. -/
def analyzeVideoCharacteristics (m : Metadata) : RuleResult :=
  let r1 := durationRule m
  let r2 := highResolutionRule m
  let r3 := lowResolutionRule m
  let r4 := aspectRule m
  let r5 := highBitrateRule m
  let r6 := lowBitrateRule m
  let r7 := highFrameRateRule m
  let r8 := lowFrameRateRule m
  ⟨r1.issues ++ r2.issues ++ r3.issues ++ r4.issues ++ r5.issues
      ++ r6.issues ++ r7.issues ++ r8.issues,
    r1.score + r2.score + r3.score + r4.score + r5.score
      + r6.score + r7.score + r8.score⟩

/-- `totalScore = Math.min(1, totalScore)` in `analyze`. -/
def clampScore (s : ℚ) : ℚ := mathMin 1 s

/-- The result object returned by `analyze`: `status`, `score`,
`categories` (the remaining fields play no role in the claims). -/
structure SensResult where
  status : String
  score : ℚ
  categories : List String
deriving DecidableEq

/-- The final classification block of `analyze` (lines 90-118): over 0.7
the status is `flagged`; over 0.4 the status is `review_needed` and
`manual_review_recommended` is pushed, and the returned status maps
`review_needed` to `flagged`; otherwise `safe`. -/
def classifyScore (totalScore : ℚ) (detectedIssues : List String) : SensResult :=
  if totalScore > 7/10 then
    { status := "flagged", score := totalScore, categories := detectedIssues }
  else if totalScore > 4/10 then
    { status := "flagged", score := totalScore,
      categories := detectedIssues ++ ["manual_review_recommended"] }
  else
    { status := "safe", score := totalScore, categories := detectedIssues }

/-- The status-to-level mapping of `videoProcessor.worker.js`
(lines 96-102): `flagged` maps to `high` over 0.7 and `medium` otherwise;
a non-flagged result maps to `medium` over 0.3 and `low` otherwise. -/
def sensitivityLevel (result : SensResult) : String :=
  if result.status == "flagged" then
    if result.score > 7/10 then "high" else "medium"
  else if result.score > 3/10 then "medium"
  else "low"

/-! ### Authentication: registration and token refresh

From the auth controller (`register`, `refreshToken`, `logout`).  A
refresh token is identified by the user it was minted for and a nonce;
the cookie value is compared for equality with the one-slot
`refreshToken` field stored on the User row. -/

/-- A signed refresh token: its `userId` claim plus an identity making two
mintings distinguishable (string equality in the source). -/
structure RToken where
  userId : Nat
  nonce : Nat
deriving DecidableEq

/-- One User document, with the fields read by the auth handlers. -/
structure UserRec where
  uid : Nat
  email : String
  name : String
  role : Role
  organizationId : Nat
  isActive : Bool
  refreshToken : Option RToken
deriving DecidableEq

/-- One Organization document. -/
structure OrgRec where
  oid : Nat
  name : String
  slug : String
  ownerId : Option Nat
deriving DecidableEq

/-- The document store for the auth handlers; `nextId` supplies fresh
document ids. -/
structure DbState where
  users : List UserRec
  orgs : List OrgRec
  nextId : Nat
deriving DecidableEq

/-- `User.findById`. -/
def findUser (users : List UserRec) (uid : Nat) : Option UserRec :=
  users.find? (fun u => u.uid == uid)

/-- `toLowerCase` on one character, tabulated over the ASCII letters
(organization names in this development are ASCII). -/
def jsLower (c : Char) : Char :=
  match c with
  | 'A' => 'a' | 'B' => 'b' | 'C' => 'c' | 'D' => 'd' | 'E' => 'e'
  | 'F' => 'f' | 'G' => 'g' | 'H' => 'h' | 'I' => 'i' | 'J' => 'j'
  | 'K' => 'k' | 'L' => 'l' | 'M' => 'm' | 'N' => 'n' | 'O' => 'o'
  | 'P' => 'p' | 'Q' => 'q' | 'R' => 'r' | 'S' => 's' | 'T' => 't'
  | 'U' => 'u' | 'V' => 'v' | 'W' => 'w' | 'X' => 'x' | 'Y' => 'y'
  | 'Z' => 'z'
  | other => other

/-- A character kept verbatim by the slug regex `[^a-z0-9]+`. -/
def isSlugChar (c : Char) : Bool :=
  (decide ('a' ≤ c) && decide (c ≤ 'z')) || (decide ('0' ≤ c) && decide (c ≤ '9'))

/-- `replace(/[^a-z0-9]+/g, '-')`: each maximal run of characters outside
`[a-z0-9]` becomes a single hyphen. -/
def squashRuns : List Char → Bool → List Char
  | [], _ => []
  | c :: cs, prevDash =>
    if isSlugChar c then c :: squashRuns cs false
    else if prevDash then squashRuns cs true
    else '-' :: squashRuns cs true

/-- The slug of an organization name: lowercase, collapse non-alphanumeric
runs to hyphens, strip leading and trailing hyphens. -/
def slugify (name : String) : String :=
  let collapsed := squashRuns (name.toList.map jsLower) false
  let trimmed :=
    ((collapsed.dropWhile (· == '-')).reverse.dropWhile (· == '-')).reverse
  String.mk trimmed

/-- `Organization.findOne({ slug })` succeeds. -/
def slugTaken (orgs : List OrgRec) (slug : String) : Bool :=
  orgs.any (fun o => o.slug == slug)

/-- The slug-deduplication loop of `register`: try `slug`, then `slug-1`,
`slug-2`, ... until unused.  `fuel` bounds the search; with
`fuel > orgs.length` the loop always stops at a free candidate, matching
the unbounded source loop. -/
def freshSlugAux (orgs : List OrgRec) (slug : String) : Nat → Nat → String
  | 0, counter => slug ++ "-" ++ toString counter
  | fuel + 1, counter =>
    let candidate := if counter = 0 then slug else slug ++ "-" ++ toString counter
    if slugTaken orgs candidate then freshSlugAux orgs slug fuel (counter + 1)
    else candidate

/-- The final slug chosen for a new organization. -/
def freshSlug (orgs : List OrgRec) (slug : String) : String :=
  freshSlugAux orgs slug (orgs.length + 1) 0

/-- Result of `POST /api/auth/register`: 409 for a duplicate email, else
201 with the created user, its organization and its role. -/
inductive RegisterResult where
  | conflictEmail
  | created (userId orgId : Nat) (role : Role)
deriving DecidableEq

/-- `register` (auth controller): reject a duplicate email with 409.  With
an `organizationName`, create a new organization under a deduplicated
slug and make the user its admin, then set the organization's `ownerId`
to the new user.  Without one, attach the user as editor to the
organization with slug `default`, creating that organization first when
it does not exist yet.  The fresh user stores a newly minted refresh
token in its one-slot field. -/
def register (st : DbState) (email name : String)
    (organizationName : Option String) : RegisterResult × DbState :=
  if st.users.any (fun u => u.email == email) then (.conflictEmail, st)
  else
    match organizationName with
    | some orgName =>
      let finalSlug := freshSlug st.orgs (slugify orgName)
      let orgId := st.nextId
      let userId := st.nextId + 1
      let newOrg : OrgRec := ⟨orgId, orgName, finalSlug, none⟩
      let newUser : UserRec :=
        ⟨userId, email, name, .admin, orgId, true, some ⟨userId, 0⟩⟩
      let orgs :=
        (st.orgs ++ [newOrg]).map fun o =>
          if o.oid = orgId then { o with ownerId := some userId } else o
      (.created userId orgId .admin, ⟨st.users ++ [newUser], orgs, st.nextId + 2⟩)
    | none =>
      match st.orgs.find? (fun o => o.slug == "default") with
      | some defaultOrg =>
        let userId := st.nextId
        let newUser : UserRec :=
          ⟨userId, email, name, .editor, defaultOrg.oid, true, some ⟨userId, 0⟩⟩
        (.created userId defaultOrg.oid .editor,
          ⟨st.users ++ [newUser], st.orgs, st.nextId + 1⟩)
      | none =>
        let orgId := st.nextId
        let userId := st.nextId + 1
        let newOrg : OrgRec := ⟨orgId, "Default Organization", "default", none⟩
        let newUser : UserRec :=
          ⟨userId, email, name, .editor, orgId, true, some ⟨userId, 0⟩⟩
        (.created userId orgId .editor,
          ⟨st.users ++ [newUser], st.orgs ++ [newOrg], st.nextId + 2⟩)

/-- Result of `POST /api/auth/refresh`: the three 401 causes, or 200 with
a fresh access token for the user. -/
inductive RefreshResult where
  | noToken
  | invalidUser
  | mismatch
  | ok (userId : Nat)
deriving DecidableEq

/-- `refreshToken` (auth controller, lines 160-198): 401 without a cookie;
verify the token and load its user, 401 when missing or inactive; 401
when the stored one-slot `refreshToken` differs from the presented
cookie; otherwise issue a new access token.  The stored slot is not
rewritten on success, so the state is returned unchanged. -/
def refreshHandler (st : DbState) (cookie : Option RToken) :
    RefreshResult × DbState :=
  match cookie with
  | none => (.noToken, st)
  | some tok =>
    match findUser st.users tok.userId with
    | none => (.invalidUser, st)
    | some user =>
      if !user.isActive then (.invalidUser, st)
      else if user.refreshToken != some tok then (.mismatch, st)
      else (.ok user.uid, st)

/-- `logout`: clear the one-slot refresh token of the calling user. -/
def logoutHandler (st : DbState) (userId : Nat) : DbState :=
  { st with
    users := st.users.map fun u =>
      if u.uid = userId then { u with refreshToken := none } else u }

theorem rangeResponse_some (video : Video) (r : RangeHeader) :
    rangeResponse video (some r) =
      if resolveEnd r.stop video.fileSize < r.start then .serverError
      else .partialContent r.start (resolveEnd r.stop video.fileSize)
        video.fileSize (resolveEnd r.stop video.fileSize - r.start + 1)
        ((video.blob.drop r.start).take
          (resolveEnd r.stop video.fileSize - r.start + 1)) := rfl

/-! ## Streaming and read-path claims -/

/-- An organization-visibility (non-public) completed video in
organization 10. -/
def c1Video : Video := ⟨1, 10, 7, .org, [], .completed, 4, [10, 20, 30, 40]⟩

/-- A request with no Authorization header; its access token, bound to the
foreign tenant 99, arrives only through the `token` query parameter. -/
def c1Request : StreamRequest := ⟨1, none, some ⟨42, 99, .viewer⟩, none⟩

/-- C1: the claim says a GET /api/stream/:id on a non-public video
succeeds only when a presented token's tenant equals the video's
organization, and that a token arriving only via the `token` query
parameter must be resolved by the middleware.  The code behaves
otherwise: `optionalAuth` never reads the query parameter, the request
stays anonymous, the controller skips the organization check for
anonymous requests, and the full video bytes are streamed. -/
theorem C1_anonymous_request_receives_nonpublic_bytes :
    streamVideo [c1Video] c1Request = .full 4 [10, 20, 30, 40] ∧
    optionalAuth c1Request = none ∧
    c1Video.visibility ≠ .pub := by decide

/-- A completed 10-byte video for the C2 range tests. -/
def c2Video : Video := ⟨2, 10, 7, .org, [], .completed, 10,
  [0, 1, 2, 3, 4, 5, 6, 7, 8, 9]⟩

/-- A same-tenant authenticated request with `Range: bytes=10-`
(start = file size, no explicit end). -/
def c2Request : StreamRequest := ⟨2, some ⟨7, 10, .editor⟩, none, some ⟨10, none⟩⟩

/-- C2 counterexample: on a 10-byte file, `Range: bytes=10-` resolves to
start 10, end 9; the handler never validates the bounds and never sends
416: `fs.createReadStream` rejects start > end and the catch-all turns
this into a 500. -/
theorem C2_counterexample :
    streamVideo [c2Video] c2Request = .serverError ∧
    ∀ t, streamVideo [c2Video] c2Request ≠ .rangeNotSatisfiable t := by
  refine ⟨by decide, fun t => ?_⟩
  intro h
  have : StreamResponse.serverError = StreamResponse.rangeNotSatisfiable t := by
    rw [← h]; decide
  exact StreamResponse.noConfusion this

/-- C2 amended: the handler performs no range validation and has no 416
path.  For any parsed range on a completed, access-granted video it
responds 500 when the resolved end is below the start (the positioned
read stream rejects such bounds), and otherwise 206 with
`Content-Range: bytes start-end/<file_size>` built from the raw parsed
bounds, even when they exceed the file. -/
theorem C2_no_416 (db : List Video) (req : StreamRequest) (video : Video)
    (r : RangeHeader)
    (hfind : findById db req.videoId = some video)
    (hauth : authPasses req video = true)
    (hstatus : video.status = .completed)
    (hrange : req.range = some r) :
    (∀ t, streamVideo db req ≠ .rangeNotSatisfiable t) ∧
    (resolveEnd r.stop video.fileSize < r.start →
      streamVideo db req = .serverError) ∧
    (r.start ≤ resolveEnd r.stop video.fileSize →
      streamVideo db req =
        .partialContent r.start (resolveEnd r.stop video.fileSize)
          video.fileSize (resolveEnd r.stop video.fileSize - r.start + 1)
          ((video.blob.drop r.start).take
            (resolveEnd r.stop video.fileSize - r.start + 1))) := by
  have hr := streamVideo_eq_rangeResponse db req video hfind hauth hstatus
  rw [hr, hrange, rangeResponse_some]
  refine ⟨fun t => ?_, fun hlt => ?_, fun hle => ?_⟩
  · split
    · intro h; exact StreamResponse.noConfusion h
    · intro h; exact StreamResponse.noConfusion h
  · rw [if_pos hlt]
  · rw [if_neg (by omega)]

/-- C2 witness data: a valid-auth request whose range `bytes=12-15` lies
wholly beyond the 10-byte file. -/
def c2wRequest : StreamRequest := ⟨2, some ⟨7, 10, .editor⟩, none, some ⟨12, some 15⟩⟩

theorem C2_no_416_witness :
    (∀ t, streamVideo [c2Video] c2wRequest ≠ .rangeNotSatisfiable t) ∧
    streamVideo [c2Video] c2wRequest = .partialContent 12 15 10 4 [] := by
  have h := C2_no_416 [c2Video] c2wRequest c2Video ⟨12, some 15⟩
    (by decide) (by decide) (by decide) (by decide)
  exact ⟨h.1, h.2.2 (by decide)⟩

/-- A completed video in organization 1. -/
def c3Video : Video := ⟨3, 1, 7, .org, [], .completed, 4, [1, 2, 3, 4]⟩

/-- An authenticated caller whose tenant claim is organization 2. -/
def c3Ctx : AuthCtx := ⟨8, 2, .editor⟩

/-- C3 counterexample: the claim says a cross-tenant read answers 404,
the same as an unknown id.  The code answers 403 (`accessDenied`) on both
GET /api/videos/:id and GET /api/stream/:id, distinguishable from the
404 of an unknown id. -/
theorem C3_counterexample :
    getVideo [c3Video] c3Ctx 3 = .accessDenied ∧
    getVideo [c3Video] c3Ctx 3 ≠ .notFound ∧
    streamVideo [c3Video] ⟨3, some c3Ctx, none, none⟩ = .accessDenied ∧
    streamVideo [c3Video] ⟨3, some c3Ctx, none, none⟩ ≠ .notFound := by decide

/-- C3 amended: for every authenticated request naming a video of a
different organization, both endpoints answer 403 (access denied), not
404. -/
theorem C3_cross_tenant_403 (db : List Video) (ctx : AuthCtx) (id : Nat)
    (video : Video) (req : StreamRequest)
    (hfind : findById db id = some video)
    (horg : video.organizationId ≠ ctx.organizationId) :
    getVideo db ctx id = .accessDenied ∧
    (req.videoId = id → req.headerAuth = some ctx →
      streamVideo db req = .accessDenied) := by
  constructor
  · unfold getVideo
    rw [hfind]
    simp [horg]
  · intro hid hauth
    unfold streamVideo optionalAuth
    rw [hid, hfind, hauth]
    simp [horg]

theorem C3_cross_tenant_403_witness :
    getVideo [c3Video] c3Ctx 3 = .accessDenied ∧
    streamVideo [c3Video] ⟨3, some c3Ctx, none, some ⟨0, some 1⟩⟩ = .accessDenied := by
  have h := C3_cross_tenant_403 [c3Video] c3Ctx 3 c3Video
    ⟨3, some c3Ctx, none, some ⟨0, some 1⟩⟩ (by decide) (by decide)
  exact ⟨h.1, h.2 rfl rfl⟩

/-- C6: every 206 partial-content response to a valid range on a
completed video carries `Content-Length = end - start + 1`,
`Content-Range: bytes start-end/<file_size>`, and a body that is exactly
the blob's bytes at positions start..end inclusive. -/
theorem C6_partial_content_exact (db : List Video) (req : StreamRequest)
    (video : Video) (r : RangeHeader)
    (hfind : findById db req.videoId = some video)
    (hauth : authPasses req video = true)
    (hstatus : video.status = .completed)
    (hrange : req.range = some r)
    (hvalid : r.start ≤ resolveEnd r.stop video.fileSize)
    (hlt : resolveEnd r.stop video.fileSize < video.fileSize)
    (hblob : video.blob.length = video.fileSize) :
    ∃ body,
      streamVideo db req =
        .partialContent r.start (resolveEnd r.stop video.fileSize)
          video.fileSize (resolveEnd r.stop video.fileSize - r.start + 1) body ∧
      body.length = resolveEnd r.stop video.fileSize - r.start + 1 ∧
      ∀ i, i < resolveEnd r.stop video.fileSize - r.start + 1 →
        body[i]? = video.blob[r.start + i]? := by
  have hr := streamVideo_eq_rangeResponse db req video hfind hauth hstatus
  refine ⟨(video.blob.drop r.start).take
    (resolveEnd r.stop video.fileSize - r.start + 1), ?_, ?_, ?_⟩
  · rw [hr, hrange, rangeResponse_some, if_neg (by omega)]
  · rw [List.length_take, List.length_drop, hblob]
    omega
  · intro i hi
    rw [List.getElem?_take_of_lt hi, List.getElem?_drop]

/-- C6 witness data: a completed 4-byte video and a matching-tenant
request for `bytes=1-2`. -/
def c6Video : Video := ⟨6, 1, 7, .org, [], .completed, 4, [5, 6, 7, 8]⟩

def c6Request : StreamRequest := ⟨6, some ⟨7, 1, .editor⟩, none, some ⟨1, some 2⟩⟩

theorem C6_partial_content_exact_witness :
    ∃ body,
      streamVideo [c6Video] c6Request = .partialContent 1 2 4 2 body ∧
      body.length = 2 ∧
      ∀ i, i < 2 → body[i]? = c6Video.blob[1 + i]? := by
  exact C6_partial_content_exact [c6Video] c6Request c6Video ⟨1, some 2⟩
    (by decide) (by decide) (by decide) (by decide) (by decide) (by decide) (by decide)

/-- A private completed video of organization 1, uploaded by user 7, whose
`allowedUsers` list names user 42. -/
def c9Video : Video := ⟨9, 1, 7, .priv, [42], .completed, 2, [1, 2]⟩

/-- C9 counterexample: the claim says a private read succeeds exactly for
the uploader, an admin, or a member of `allowed_user_ids`.  The code
denies GET /api/videos/:id to the allowed-list member 42 (the list is
never consulted), and GET /api/stream/:id streams the private bytes to
the same-tenant outsider 43 who is in none of the three cases (no
visibility check on the stream path). -/
theorem C9_counterexample :
    getVideo [c9Video] ⟨42, 1, .viewer⟩ 9 = .accessDeniedPrivate ∧
    streamVideo [c9Video] ⟨9, some ⟨43, 1, .viewer⟩, none, none⟩ = .full 2 [1, 2] := by
  decide

/-- C9 amended: on GET /api/videos/:id a same-tenant read of a private
video succeeds exactly when the caller is the uploader or an admin
(`allowed_user_ids` is ignored); GET /api/stream/:id applies no
visibility check at all, so any same-tenant caller receives the bytes of
a completed private video. -/
theorem C9_private_visibility (db : List Video) (ctx : AuthCtx) (id : Nat)
    (video : Video) (req : StreamRequest)
    (hfind : findById db id = some video)
    (hpriv : video.visibility = .priv)
    (horg : video.organizationId = ctx.organizationId) :
    (getVideo db ctx id = .ok video ↔
      video.uploadedBy = ctx.userId ∨ ctx.role = .admin) ∧
    (video.status = .completed → req.videoId = id →
      req.headerAuth = some ctx → req.range = none →
      streamVideo db req = .full video.fileSize video.blob) := by
  constructor
  · unfold getVideo
    rw [hfind]
    simp only [horg, bne_self_eq_false, Bool.false_eq_true, if_false]
    by_cases howner : video.uploadedBy = ctx.userId
    · simp [hpriv, howner]
    · by_cases hadmin : ctx.role = .admin
      · simp [hpriv, howner, hadmin]
      · simp [hpriv, howner, hadmin]
  · intro hstatus hid hauth hnone
    have hr := streamVideo_eq_rangeResponse db req video
      (by rw [hid]; exact hfind)
      (by unfold authPasses; rw [hauth, horg]; simp) hstatus
    rw [hr, hnone]
    rfl

theorem C9_private_visibility_witness :
    (getVideo [c9Video] ⟨7, 1, .viewer⟩ 9 = .ok c9Video ↔
      c9Video.uploadedBy = 7 ∨ Role.viewer = Role.admin) ∧
    streamVideo [c9Video] ⟨9, some ⟨7, 1, .viewer⟩, none, none⟩
      = .full 2 [1, 2] := by
  have h := C9_private_visibility [c9Video] ⟨7, 1, .viewer⟩ 9 c9Video
    ⟨9, some ⟨7, 1, .viewer⟩, none, none⟩ (by decide) (by decide) (by decide)
  exact ⟨h.1, h.2 (by decide) rfl rfl rfl⟩

/-! ## Auth claims -/

/-- The refresh handler never writes the store: every branch returns the
state unchanged (the source issues a new access token only). -/
theorem refreshHandler_state (st : DbState) (cookie : Option RToken) :
    (refreshHandler st cookie).2 = st := by
  unfold refreshHandler
  split
  · rfl
  · split
    · rfl
    · split
      · rfl
      · split <;> rfl

/-- The refresh token stored on the C4 user. -/
def c4Token : RToken := ⟨1, 0⟩

/-- A store with one active user whose one-slot refresh token is
`c4Token`. -/
def c4State : DbState := ⟨[⟨1, "a@x.io", "A", .editor, 1, true, some c4Token⟩], [], 2⟩

/-- C4 counterexample: the claim says a second POST /api/auth/refresh with
the token of an already-successful refresh is rejected with 401.  In the
code a successful refresh does not rotate the stored slot, so the replay
matches again and succeeds. -/
theorem C4_counterexample :
    (refreshHandler c4State (some c4Token)).1 = .ok 1 ∧
    (refreshHandler (refreshHandler c4State (some c4Token)).2 (some c4Token)).1 = .ok 1 ∧
    (refreshHandler (refreshHandler c4State (some c4Token)).2 (some c4Token)).1 ≠ .mismatch := by
  decide

/-- C4 amended: a successful refresh leaves the user state unchanged, so
replaying the same refresh token succeeds again; the 401 mismatch
rejection fires exactly when the stored one-slot value no longer equals
the presented token (for instance after a login or logout rewrote it). -/
theorem C4_replay_succeeds (st : DbState) (tok : RToken) (uid : Nat) :
    ((refreshHandler st (some tok)).1 = .ok uid →
      (refreshHandler st (some tok)).2 = st ∧
      (refreshHandler (refreshHandler st (some tok)).2 (some tok)).1 = .ok uid) ∧
    (∀ u, findUser st.users tok.userId = some u → u.isActive = true →
      u.refreshToken ≠ some tok → (refreshHandler st (some tok)).1 = .mismatch) := by
  constructor
  · intro hok
    refine ⟨refreshHandler_state st (some tok), ?_⟩
    rw [refreshHandler_state st (some tok)]
    exact hok
  · intro u hfind hact hne
    simp only [refreshHandler]
    rw [hfind]
    simp [hact, hne]

theorem C4_replay_succeeds_witness :
    ((refreshHandler c4State (some c4Token)).2 = c4State ∧
      (refreshHandler (refreshHandler c4State (some c4Token)).2 (some c4Token)).1 = .ok 1) ∧
    (refreshHandler (logoutHandler c4State 1) (some c4Token)).1 = .mismatch := by
  refine ⟨(C4_replay_succeeds c4State c4Token 1).1 (by decide), ?_⟩
  exact (C4_replay_succeeds (logoutHandler c4State 1) c4Token 1).2
    ⟨1, "a@x.io", "A", .editor, 1, true, none⟩ (by decide) (by decide) (by decide)

/-- The empty store for the registration claims. -/
def c7Start : DbState := ⟨[], [], 0⟩

/-- C7 counterexample: the claim says registering the organization name
"Acme" twice yields 409 on the second attempt and no second Organization
row.  In the code the second attempt succeeds (201) and creates a second
Organization named "Acme" under the deduplicated slug `acme-1`. -/
theorem C7_counterexample :
    (register c7Start "a@x.io" "A" (some "Acme")).1 = .created 1 0 .admin ∧
    (register (register c7Start "a@x.io" "A" (some "Acme")).2
        "b@x.io" "B" (some "Acme")).1 = .created 3 2 .admin ∧
    (register (register c7Start "a@x.io" "A" (some "Acme")).2
        "b@x.io" "B" (some "Acme")).2.orgs.map (fun o => (o.name, o.slug))
      = [("Acme", "acme"), ("Acme", "acme-1")] := by decide

/-- C7 amended: a registration whose organization name is already in use
is not rejected: whenever the email is fresh it succeeds as admin of a
newly created organization whose slug is deduplicated against the
existing slugs, and every pre-existing Organization row (the first
"Acme" included) is left byte-for-byte unchanged.  409 arises only from
a duplicate email. -/
theorem C7_duplicate_name_creates_second_org (st : DbState)
    (email name orgName : String)
    (hemail : st.users.any (fun u => u.email == email) = false)
    (hfresh : ∀ o ∈ st.orgs, o.oid ≠ st.nextId) :
    (register st email name (some orgName)).1
      = .created (st.nextId + 1) st.nextId .admin ∧
    (register st email name (some orgName)).2.orgs
      = st.orgs ++ [⟨st.nextId, orgName, freshSlug st.orgs (slugify orgName),
          some (st.nextId + 1)⟩] := by
  unfold register
  rw [hemail]
  simp only [Bool.false_eq_true, if_false]
  refine ⟨trivial, ?_⟩
  simp only [List.map_append, List.map_cons, List.map_nil, if_pos rfl]
  congr 1
  have : ∀ o ∈ st.orgs,
      (if o.oid = st.nextId then { o with ownerId := some (st.nextId + 1) } else o) = o := by
    intro o ho
    rw [if_neg (hfresh o ho)]
  calc st.orgs.map _ = st.orgs.map id := List.map_congr_left this
    _ = st.orgs := List.map_id st.orgs

theorem C7_duplicate_name_creates_second_org_witness :
    (register (register c7Start "a@x.io" "A" (some "Acme")).2
        "b@x.io" "B" (some "Acme")).1 = .created 3 2 .admin ∧
    (register (register c7Start "a@x.io" "A" (some "Acme")).2
        "b@x.io" "B" (some "Acme")).2.orgs
      = (register c7Start "a@x.io" "A" (some "Acme")).2.orgs
          ++ [⟨2, "Acme",
                freshSlug (register c7Start "a@x.io" "A" (some "Acme")).2.orgs
                  (slugify "Acme"), some 3⟩] := by
  exact C7_duplicate_name_creates_second_org
    (register c7Start "a@x.io" "A" (some "Acme")).2 "b@x.io" "B" "Acme"
    (by decide) (by decide)

/-- C10: a registration without an organizationName attaches the new user
as editor to the organization with slug `default`: when such an
organization already exists it is reused unchanged (so all later
unattached registrants share it), and on the first such registration it
is created as "Default Organization"; the admin role is granted only
when an organizationName is given. -/
theorem C10_default_org (st : DbState) (email name : String)
    (hemail : st.users.any (fun u => u.email == email) = false) :
    (∀ d, st.orgs.find? (fun o => o.slug == "default") = some d →
      register st email name none =
        (.created st.nextId d.oid .editor,
          ⟨st.users ++ [⟨st.nextId, email, name, .editor, d.oid, true,
              some ⟨st.nextId, 0⟩⟩],
            st.orgs, st.nextId + 1⟩)) ∧
    (st.orgs.find? (fun o => o.slug == "default") = none →
      register st email name none =
        (.created (st.nextId + 1) st.nextId .editor,
          ⟨st.users ++ [⟨st.nextId + 1, email, name, .editor, st.nextId, true,
              some ⟨st.nextId + 1, 0⟩⟩],
            st.orgs ++ [⟨st.nextId, "Default Organization", "default", none⟩],
            st.nextId + 2⟩)) ∧
    (∀ orgName, (register st email name (some orgName)).1
      = .created (st.nextId + 1) st.nextId .admin) := by
  refine ⟨fun d hd => ?_, fun hnone => ?_, fun orgName => ?_⟩
  · unfold register
    rw [hemail]
    simp only [Bool.false_eq_true, if_false]
    rw [hd]
  · unfold register
    rw [hemail]
    simp only [Bool.false_eq_true, if_false]
    rw [hnone]
  · unfold register
    rw [hemail]
    simp only [Bool.false_eq_true, if_false]

theorem C10_default_org_witness :
    register (register c7Start "x@x.io" "X" none).2 "y@y.io" "Y" none =
      (.created 2 0 .editor,
        ⟨[⟨1, "x@x.io", "X", .editor, 0, true, some ⟨1, 0⟩⟩,
          ⟨2, "y@y.io", "Y", .editor, 0, true, some ⟨2, 0⟩⟩],
          [⟨0, "Default Organization", "default", none⟩], 3⟩) := by
  have h := (C10_default_org (register c7Start "x@x.io" "X" none).2
    "y@y.io" "Y" (by decide)).1 ⟨0, "Default Organization", "default", none⟩ (by decide)
  exact h

/-! ## Sensitivity claims -/

/-- C5 counterexample: the claim maps every score at most 0.4 to
status=safe and level=low.  At score 0.35 the service returns status
safe but the worker maps it to level medium (its non-flagged branch
tests score > 0.3). -/
theorem C5_counterexample :
    (classifyScore (35/100) []).status = "safe" ∧
    sensitivityLevel (classifyScore (35/100) []) = "medium" := by
  have h1 : ¬ ((35 : ℚ)/100 > 7/10) := by norm_num
  have h2 : ¬ ((35 : ℚ)/100 > 4/10) := by norm_num
  have h3 : (35 : ℚ)/100 > 3/10 := by norm_num
  constructor
  · simp [classifyScore, h1, h2]
  · simp [classifyScore, sensitivityLevel, h1, h2, h3]

/-- C5 amended: the score-to-status mapping holds as claimed for the
flagged bands, but the safe band splits on 0.3: a score s ≤ 0.4 yields
status=safe with level=medium when 0.3 < s and level=low only when
s ≤ 0.3. -/
theorem C5_mapping (s : ℚ) (issues : List String) (hclamp : s ≤ 1) :
    (s > 7/10 → (classifyScore s issues).status = "flagged" ∧
      sensitivityLevel (classifyScore s issues) = "high") ∧
    (4/10 < s → s ≤ 7/10 → (classifyScore s issues).status = "flagged" ∧
      "manual_review_recommended" ∈ (classifyScore s issues).categories ∧
      sensitivityLevel (classifyScore s issues) = "medium") ∧
    (s ≤ 4/10 → (classifyScore s issues).status = "safe" ∧
      (3/10 < s → sensitivityLevel (classifyScore s issues) = "medium") ∧
      (s ≤ 3/10 → sensitivityLevel (classifyScore s issues) = "low")) := by
  refine ⟨fun h7 => ?_, fun h4 h7 => ?_, fun h4 => ?_⟩
  · simp [classifyScore, sensitivityLevel, h7]
  · have h7n : ¬ (s > 7/10) := by linarith
    simp [classifyScore, sensitivityLevel, h7n, h4]
  · have h7n : ¬ (s > 7/10) := by linarith
    have h4n : ¬ (s > 4/10) := by linarith
    refine ⟨by simp [classifyScore, h7n, h4n], fun h3 => ?_, fun h3 => ?_⟩
    · simp [classifyScore, sensitivityLevel, h7n, h4n, h3]
    · have h3n : ¬ (s > 3/10) := by linarith
      simp [classifyScore, sensitivityLevel, h7n, h4n, h3n]

theorem C5_mapping_witness :
    ((classifyScore (1/2) ["x"]).status = "flagged" ∧
      "manual_review_recommended" ∈ (classifyScore (1/2) ["x"]).categories ∧
      sensitivityLevel (classifyScore (1/2) ["x"]) = "medium") ∧
    ((classifyScore (2/10) []).status = "safe" ∧
      sensitivityLevel (classifyScore (2/10) []) = "low") := by
  constructor
  · exact (C5_mapping (1/2) ["x"] (by norm_num)).2.1 (by norm_num) (by norm_num)
  · have h := (C5_mapping (2/10) [] (by norm_num)).2.2 (by norm_num)
    exact ⟨h.1, h.2.2 (by norm_num)⟩

/-- Each non-duration rule block pushes neither of the two duration
categories. -/
theorem duration_strings_not_elsewhere (m : Metadata) (s : String)
    (h1 : s ≠ "extremely_high_resolution") (h2 : s ≠ "very_low_resolution")
    (h3 : s ≠ "unusual_aspect_ratio") (h4 : s ≠ "extremely_high_bitrate")
    (h5 : s ≠ "very_low_bitrate") (h6 : s ≠ "unusually_high_framerate")
    (h7 : s ≠ "very_low_framerate") :
    s ∉ (highResolutionRule m).issues ∧ s ∉ (lowResolutionRule m).issues ∧
    s ∉ (aspectRule m).issues ∧ s ∉ (highBitrateRule m).issues ∧
    s ∉ (lowBitrateRule m).issues ∧ s ∉ (highFrameRateRule m).issues ∧
    s ∉ (lowFrameRateRule m).issues := by
  refine ⟨?_, ?_, ?_, ?_, ?_, ?_, ?_⟩ <;>
    simp only [highResolutionRule, lowResolutionRule, aspectRule, highBitrateRule,
      lowBitrateRule, highFrameRateRule, lowFrameRateRule] <;>
    split <;> simp_all

/-- Membership in the issue list of `analyzeVideoCharacteristics` splits
over the rule blocks. -/
theorem mem_analyzeVideoCharacteristics (m : Metadata) (s : String) :
    s ∈ (analyzeVideoCharacteristics m).issues ↔
      s ∈ (durationRule m).issues ∨ s ∈ (highResolutionRule m).issues ∨
      s ∈ (lowResolutionRule m).issues ∨ s ∈ (aspectRule m).issues ∨
      s ∈ (highBitrateRule m).issues ∨ s ∈ (lowBitrateRule m).issues ∨
      s ∈ (highFrameRateRule m).issues ∨ s ∈ (lowFrameRateRule m).issues := by
  simp [analyzeVideoCharacteristics, List.mem_append, or_assoc]

/-- Probed metadata with duration 10801 s and otherwise unremarkable
characteristics (1080p, 5 Mb/s, 30 fps). -/
def c8Meta : Metadata := ⟨10801, 1920, 1080, 5000000, 30⟩

/-- C8 counterexample: the claim says a duration above 10800 s fires both
`long_duration` and `extremely_long_duration`.  At duration 10801 the
else-if chain fires only `extremely_long_duration` (with the combined
weight 0.15); `long_duration` is absent. -/
theorem C8_counterexample :
    "long_duration" ∉ (analyzeVideoCharacteristics c8Meta).issues ∧
    "extremely_long_duration" ∈ (analyzeVideoCharacteristics c8Meta).issues ∧
    (analyzeVideoCharacteristics c8Meta).score = 15/100 := by
  have hd : (c8Meta.duration > durationSuspicious) := by
    norm_num [c8Meta, durationSuspicious]
  have hdur : durationRule c8Meta =
      ⟨["extremely_long_duration"], 15/100⟩ := by
    unfold durationRule
    rw [if_pos hd]
    norm_num [categoryWeight]
  have hw : highResolutionRule c8Meta = ⟨[], 0⟩ := by
    unfold highResolutionRule
    rw [if_neg]
    norm_num [c8Meta, resolutionMaxWidth, resolutionMaxHeight]
  have hl : lowResolutionRule c8Meta = ⟨[], 0⟩ := by
    unfold lowResolutionRule
    rw [if_neg]
    norm_num [c8Meta, resolutionMinWidth, resolutionMinHeight]
  have ha : aspectRule c8Meta = ⟨[], 0⟩ := by
    unfold aspectRule
    rw [if_neg]
    simp only [calcAspect, isCommonAspect, c8Meta]
    norm_num [mathAbs, List.any_cons, List.any_nil]
  have hb : highBitrateRule c8Meta = ⟨[], 0⟩ := by
    unfold highBitrateRule
    rw [if_neg]
    norm_num [c8Meta, bitrateVeryHigh]
  have hlb : lowBitrateRule c8Meta = ⟨[], 0⟩ := by
    unfold lowBitrateRule
    rw [if_neg]
    norm_num [c8Meta, bitrateVeryLow]
  have hf : highFrameRateRule c8Meta = ⟨[], 0⟩ := by
    unfold highFrameRateRule
    rw [if_neg]
    norm_num [c8Meta, frameRateMax]
  have hlf : lowFrameRateRule c8Meta = ⟨[], 0⟩ := by
    unfold lowFrameRateRule
    rw [if_neg]
    norm_num [c8Meta, frameRateMin]
  unfold analyzeVideoCharacteristics
  rw [hdur, hw, hl, ha, hb, hlb, hf, hlf]
  refine ⟨?_, ?_, ?_⟩
  · decide
  · decide
  · norm_num

/-- C8 amended: above 10800 s the else-if chain replaces `long_duration`
by the single category `extremely_long_duration` carrying the combined
weight 0.15; `long_duration` fires exactly on durations in (7200, 10800];
durations at most 7200 s (such as 7199) fire neither. -/
theorem C8_duration_categories (m : Metadata) :
    ("extremely_long_duration" ∈ (analyzeVideoCharacteristics m).issues ↔
      m.duration > 10800) ∧
    ("long_duration" ∈ (analyzeVideoCharacteristics m).issues ↔
      (7200 < m.duration ∧ m.duration ≤ 10800)) ∧
    (durationRule m).score =
      (if m.duration > 10800 then 15/100
        else if m.duration > 7200 then 1/10 else 0) := by
  have hrest1 := duration_strings_not_elsewhere m "extremely_long_duration"
    (by decide) (by decide) (by decide) (by decide) (by decide) (by decide) (by decide)
  have hrest2 := duration_strings_not_elsewhere m "long_duration"
    (by decide) (by decide) (by decide) (by decide) (by decide) (by decide) (by decide)
  obtain ⟨q1, q2, q3, q4, q5, q6, q7⟩ := hrest1
  obtain ⟨p1, p2, p3, p4, p5, p6, p7⟩ := hrest2
  have hsusp : durationSuspicious = 10800 := rfl
  have hvl : durationVeryLong = 7200 := rfl
  refine ⟨?_, ?_, ?_⟩
  · rw [mem_analyzeVideoCharacteristics]
    simp only [q1, q2, q3, q4, q5, q6, q7, or_false]
    unfold durationRule
    rw [hsusp, hvl]
    split
    · simp_all
    · split <;> simp_all
  · rw [mem_analyzeVideoCharacteristics]
    simp only [p1, p2, p3, p4, p5, p6, p7, or_false]
    unfold durationRule
    rw [hsusp, hvl]
    split
    · rename_i h
      simp only [List.mem_singleton]
      constructor
      · intro hx; exact absurd hx (by decide)
      · intro hx; linarith [hx.2]
    · split
      · rename_i h1 h2
        simp only [List.mem_singleton, true_iff]
        push_neg at h1
        exact ⟨h2, h1⟩
      · rename_i h1 h2
        simp only [List.not_mem_nil, false_iff, not_and, not_le]
        push_neg at h1 h2
        intro hx
        exact absurd h2 (by push_neg; exact hx)
  · unfold durationRule
    rw [hsusp, hvl]
    split
    · norm_num [categoryWeight]
    · split
      · norm_num [categoryWeight]
      · rfl

theorem C8_duration_categories_witness :
    ("long_duration" ∈ (analyzeVideoCharacteristics ⟨7201, 1920, 1080, 5000000, 30⟩).issues ↔
      ((7200 : ℚ) < 7201 ∧ (7201 : ℚ) ≤ 10800)) ∧
    ("long_duration" ∈ (analyzeVideoCharacteristics ⟨7199, 1920, 1080, 5000000, 30⟩).issues ↔
      ((7200 : ℚ) < 7199 ∧ (7199 : ℚ) ≤ 10800)) := by
  exact ⟨(C8_duration_categories ⟨7201, 1920, 1080, 5000000, 30⟩).2.1,
    (C8_duration_categories ⟨7199, 1920, 1080, 5000000, 30⟩).2.1⟩

end VideoStream
